import Mathlib

/-!
Verification of the protective core of the Telegram control bot (`bot.py`).

Shallow embedding conventions:
* Python strings are `List Char`; on-disk byte sizes are the summed UTF-8
  widths of the characters (`utf8Len`).  Invalid UTF-8 on disk is not
  representable in this model (every `List Char` is valid text), so the
  `UnicodeDecodeError` branch of `safe_read_file` has no counterpart.
* `time.time()` values are rationals (`ℚ`).  Wall-clock timestamps produced
  by `time.time()` are strictly positive reals; theorems about the circuit
  breaker carry a `0 < t` hypothesis where the Python truthiness test
  `if circuit_breaker_opened_at:` would otherwise misread an opening time
  of exactly `0.0` as "not open".
* Replies are abstracted to tokens (`Reply`): the claims only ever inspect
  which reply was sent and how many, never the literal message text.
* Real-time behaviour (the SIGALRM 5-second file timeout) is not modelled;
  no claim settled here depends on an operation actually timing out.
-/

/-! ### Python string helpers -/

/-- The whitespace characters recognised by Python's `str.strip()` and by
`\s` in a `str` regular expression (`Py_UNICODE_ISSPACE`). -/
def isPySpace (c : Char) : Bool :=
  c = ' ' || c = '\t' || c = '\n' || c = '\r' || c = '\x0b' || c = '\x0c' ||
  c = '\x1c' || c = '\x1d' || c = '\x1e' || c = '\x1f' || c = '\x85' ||
  c = ' ' || c = ' ' || c = ' ' || c = ' ' || c = ' ' ||
  c = ' ' || c = ' ' || c = ' ' || c = ' ' || c = ' ' ||
  c = ' ' || c = ' ' || c = ' ' || c = ' ' || c = ' ' ||
  c = ' ' || c = ' ' || c = '　'

/-- Python `s.strip()`: remove leading and trailing whitespace. -/
def pyStrip (s : List Char) : List Char :=
  ((s.dropWhile isPySpace).reverse.dropWhile isPySpace).reverse

/-- Byte size of the UTF-8 encoding of a string (`len(s.encode('utf-8'))`,
and the on-disk `st_size` of a file holding exactly this text). -/
def utf8Len (s : List Char) : Nat :=
  (s.map Char.utf8Size).sum

/-- Python `' '.join(args)`. -/
def joinSpace (args : List (List Char)) : List Char :=
  List.intercalate [' '] args

/-! ### Input sanitizer (`sanitize_task_description`, bot.py lines 301-314) -/

/-- `MAX_TASK_DESCRIPTION_LENGTH = 500` (bot.py line 59). -/
def MAX_TASK_DESCRIPTION_LENGTH : Nat := 500

/-- One character of the allow-set of `ALLOWED_TASK_CHARS`,
the regex `^[a-zA-Z0-9\s\-_.,!?]+$` (bot.py line 60). -/
def allowedTaskChar (c : Char) : Bool :=
  ('a' ≤ c && c ≤ 'z') || ('A' ≤ c && c ≤ 'Z') || ('0' ≤ c && c ≤ '9') ||
  isPySpace c || c = '-' || c = '_' || c = '.' || c = ',' || c = '!' || c = '?'

/-- `ALLOWED_TASK_CHARS.match(s)` succeeds iff `s` is a non-empty string of
allow-set characters.  (Python's `$` also matches just before one final
newline, but `'\n'` is itself in the allow-set via `\s`, so the accepted
language is exactly `(allowed)+`.) -/
def allowedTaskMatch (s : List Char) : Bool :=
  !s.isEmpty && s.all allowedTaskChar

/-- Substring test for the two-character needle `".."` (Python `'..' in s`). -/
def hasDotDot : List Char → Bool
  | c1 :: c2 :: rest => (c1 = '.' && c2 = '.') || hasDotDot (c2 :: rest)
  | _ => false

/-- The distinguishable `ValueError` outcomes of `sanitize_task_description`. -/
inductive ValidationError
  | tooLong
  | forbiddenChars
  | pathTraversal
deriving DecidableEq

/-- `sanitize_task_description` (bot.py lines 301-314): strip, then the
length check, then the allow-set regex, then the path-separator check. -/
def sanitize_task_description (s : List Char) : Except ValidationError (List Char) :=
  if MAX_TASK_DESCRIPTION_LENGTH < (pyStrip s).length then .error .tooLong
  else if !allowedTaskMatch (pyStrip s) then .error .forbiddenChars
  else if (pyStrip s).contains '/' || (pyStrip s).contains '\\' || hasDotDot (pyStrip s) then
    .error .pathTraversal
  else .ok (pyStrip s)

/-! ### Safe file primitives (`safe_read_file` / `safe_write_file`,
bot.py lines 249-298).  A file is `Option (List Char)`: `none` when absent. -/

/-- The distinguishable failures of the safe file primitives.  (The
`UnicodeDecodeError` branch of `safe_read_file` is unrepresentable here,
and the SIGALRM timeout is real-time behaviour outside this model.) -/
inductive FileError
  | notFound
  | tooLarge
deriving DecidableEq

/-- `safe_read_file` (bot.py lines 249-277): absent file fails `notFound`;
a file whose byte size exceeds `max_size` (default 1 MiB) fails `tooLarge`;
otherwise the content is returned. -/
def safe_read_file (file : Option (List Char)) (max_size : Nat := 1048576) :
    Except FileError (List Char) :=
  match file with
  | none => .error .notFound
  | some content =>
    if max_size < utf8Len content then .error .tooLarge
    else .ok content

/-- `safe_write_file` (bot.py lines 280-298): content whose UTF-8 encoding
exceeds `max_size` fails `tooLarge`; otherwise the content to be stored is
returned (the caller overwrites the file with it). -/
def safe_write_file (content : List Char) (max_size : Nat := 1048576) :
    Except FileError (List Char) :=
  if max_size < utf8Len content then .error .tooLarge
  else .ok content

/-! ### Circuit breaker (`circuit_breaker`, bot.py lines 141-181) -/

/-- `CIRCUIT_BREAKER_THRESHOLD = 5` (bot.py line 68). -/
def CIRCUIT_BREAKER_THRESHOLD : Nat := 5

/-- `CIRCUIT_BREAKER_TIMEOUT = 300` seconds (bot.py line 69). -/
def CIRCUIT_BREAKER_TIMEOUT : ℚ := 300

/-- The module-level breaker state: `circuit_breaker_failures` and
`circuit_breaker_opened_at` (bot.py lines 70-71). -/
structure CBState where
  failures : Nat
  openedAt : Option ℚ
deriving DecidableEq

/-- Python truthiness of `circuit_breaker_opened_at`: falsy when `None`
and also when exactly `0.0`. -/
def pyTruthy : Option ℚ → Bool
  | none => false
  | some x => decide (x ≠ 0)

/-- Outcome of one pass through the `circuit_breaker` wrapper. -/
inductive CBResult
  | rejectedOpen
  | succeeded
  | failedThrough
deriving DecidableEq

/-- The `try` block of the wrapper (bot.py lines 163-179): run the wrapped
operation; on success reset the failure counter, on failure increment it
and record the opening time once the threshold is reached, re-raising. -/
def cbRunOp (s : CBState) (now : ℚ) (opSucceeds : Bool) : CBState × CBResult :=
  if opSucceeds then ({ s with failures := 0 }, .succeeded)
  else
    let f := s.failures + 1
    if CIRCUIT_BREAKER_THRESHOLD ≤ f then (⟨f, some now⟩, .failedThrough)
    else ({ s with failures := f }, .failedThrough)

/-- One call through the `circuit_breaker` wrapper (bot.py lines 148-179):
if `circuit_breaker_opened_at` is truthy and the cooldown has not elapsed,
raise `CircuitBreakerOpen` without invoking the operation; if it has
elapsed, reset both counters and fall through to the operation. -/
def circuitBreakerCall (s : CBState) (now : ℚ) (opSucceeds : Bool) : CBState × CBResult :=
  if pyTruthy s.openedAt then
    if now - s.openedAt.getD 0 < CIRCUIT_BREAKER_TIMEOUT then (s, .rejectedOpen)
    else cbRunOp ⟨0, none⟩ now opSucceeds
  else cbRunOp s now opSucceeds

/-- The breaker blocks a call arriving at time `now` (the condition of the
`raise CircuitBreakerOpen` branch). -/
def cbBlocks (s : CBState) (now : ℚ) : Bool :=
  pyTruthy s.openedAt && decide (now - s.openedAt.getD 0 < CIRCUIT_BREAKER_TIMEOUT)

/-! ### Rate limiter (`rate_limit`, bot.py lines 106-138) -/

/-- `RATE_LIMIT_COMMANDS = 10` (bot.py line 63). -/
def RATE_LIMIT_COMMANDS : Nat := 10

/-- `RATE_LIMIT_WINDOW = 60` seconds (bot.py line 64). -/
def RATE_LIMIT_WINDOW : ℚ := 60

/-- The pruning comprehension (bot.py lines 118-121): keep exactly the
recorded timestamps with `now - timestamp < RATE_LIMIT_WINDOW`. -/
def prune (now : ℚ) (l : List ℚ) : List ℚ :=
  l.filter (fun ts => decide (now - ts < RATE_LIMIT_WINDOW))

/-- One rate-limiter check for one identity (bot.py lines 113-136): prune,
then either reject (`false`, timestamp not recorded) when the kept count
has reached the limit, or record the current timestamp and accept. -/
def rlStep (st : List ℚ) (now : ℚ) : List ℚ × Bool :=
  let kept := prune now st
  if RATE_LIMIT_COMMANDS ≤ kept.length then (kept, false)
  else (kept ++ [now], true)

/-- Timestamps of the accepted calls when one identity's checks run in
sequence at the given call times, starting from stored state `st`. -/
def rlAccepts (st : List ℚ) : List ℚ → List ℚ
  | [] => []
  | t :: ts =>
    let s := rlStep st t
    if s.2 then t :: rlAccepts s.1 ts else rlAccepts s.1 ts

/-- Membership of `s` in the trailing `RATE_LIMIT_WINDOW`-second interval
ending at `T`, i.e. `T - 60 < s ≤ T`. -/
def inWindow (T s : ℚ) : Bool :=
  decide (T - RATE_LIMIT_WINDOW < s) && decide (s ≤ T)

/-- Number of elements of `l` lying in the trailing window ending at `T`. -/
def windowCount (T : ℚ) (l : List ℚ) : Nat :=
  l.countP (inWindow T)

/-! ### Command orchestration (bot.py lines 323-511)

One inbound command by one identity is modelled end to end.  `rl` is this
identity's entry of `rate_limit_data` (entries of other identities are
untouched by a call, since every access is keyed by `update.effective_user.id`);
`cb` is the process-wide breaker state.  The trace records, in execution
order, the protective-gate outcomes and the actual file accesses
(`read_text` / `write_text` / `unlink`) performed by the command body. -/

/-- The six registered commands (bot.py lines 527-532).  `/task` carries
the argument words (`context.args`). -/
inductive Cmd
  | start
  | ping
  | status
  | task (args : List (List Char))
  | approve
  | reject
deriving DecidableEq

/-- The audit-event kinds emitted on the modelled paths. -/
inductive AuditKind
  | RATE_LIMIT_EXCEEDED
  | UNAUTHORIZED_ACCESS
  | START
  | PING
  | STATUS_CHECK
  | STATUS_ERROR
  | TASK_CREATED
  | TASK_VALIDATION_FAILED
  | APPROVAL_GRANTED
  | APPROVAL_REJECTED
  | APPROVAL_ERROR
deriving DecidableEq

/-- One `audit_log` record: the event kind and its SUCCESS/FAILURE flag. -/
structure AuditRec where
  kind : AuditKind
  success : Bool
deriving DecidableEq

/-- Reply tokens.  The literal message text is transport glue; each token
stands for one distinct `reply_text` call site. -/
inductive Reply
  | startMenu
  | unauthorized
  | rateLimited
  | pong
  | statusReport
  | taskCreated
  | invalidTask
  | usageMsg
  | noPending
  | approvedMsg
  | rejectedMsg
  | errorGeneric
deriving DecidableEq

/-- The four well-known file slots. -/
inductive FileId
  | statusF
  | approvalF
  | responseF
  | taskF
deriving DecidableEq

/-- Trace events: gate outcomes and file accesses, in execution order. -/
inductive Ev
  | rateOk
  | rateBlocked
  | breakerOk
  | breakerBlocked
  | authOk
  | authFail
  | readF (f : FileId)
  | writeF (f : FileId)
  | deleteF (f : FileId)
deriving DecidableEq

/-- The files the bot touches.  A task record is kept as the pair
(originating user, sanitized description); `renderTaskContent` is its
rendered file text as far as the size check is concerned. -/
structure FS where
  statusFile : Option (List Char)
  approvalFile : Option (List Char)
  responseFile : Option (List Char)
  tasks : List (Nat × List Char)
deriving DecidableEq

/-- Result of a command body: updated files, replies sent, audit records,
and trace events, each in order. -/
structure BodyOut where
  fs : FS
  replies : List Reply
  audits : List AuditRec
  trace : List Ev
deriving DecidableEq

/-- Result of one full inbound command. -/
structure StepResult where
  rl : List ℚ
  cb : CBState
  fs : FS
  replies : List Reply
  audits : List AuditRec
  trace : List Ev
deriving DecidableEq

/-- Literal content of the approval response on `/approve`. -/
def approvedTok : List Char := "APPROVED".toList

/-- Literal content of the approval response on `/reject`. -/
def rejectedTok : List Char := "REJECTED".toList

/-- Rendered text of a task record file, abbreviated: the fixed template
boilerplate (header, timestamps, instructions) is collapsed, keeping the
parts the size check depends on — some fixed text, the user id and the
description.  No claim inspects the boilerplate wording. -/
def renderTaskContent (uid : Nat) (d : List Char) : List Char :=
  "# Task from Telegram User ".toList ++ (toString uid).toList ++
    " Status pending Description ".toList ++ d

/-- Rendered text of the status document written on task creation,
abbreviated the same way. -/
def renderStatusContent (d : List Char) : List Char :=
  "New Task ".toList ++ d

/-- `/start` body (bot.py lines 324-341): the only handler that replies to
an unauthorized caller. -/
def startBody (uid authUid : Nat) (fs : FS) : BodyOut :=
  if uid = authUid then
    ⟨fs, [.startMenu], [⟨.START, true⟩], [.authOk]⟩
  else
    ⟨fs, [.unauthorized], [⟨.UNAUTHORIZED_ACCESS, false⟩], [.authFail]⟩

/-- `/ping` body (bot.py lines 345-353): silent on unauthorized callers. -/
def pingBody (uid authUid : Nat) (fs : FS) : BodyOut :=
  if uid = authUid then
    ⟨fs, [.pong], [⟨.PING, true⟩], [.authOk]⟩
  else
    ⟨fs, [], [⟨.UNAUTHORIZED_ACCESS, false⟩], [.authFail]⟩

/-- `/status` body (bot.py lines 358-386): read the status file if present;
a `ValueError` from `safe_read_file` is caught by the `except Exception`
arm (error reply, no crash). -/
def statusBody (uid authUid : Nat) (fs : FS) : BodyOut :=
  if uid = authUid then
    match fs.statusFile with
    | none => ⟨fs, [.statusReport], [⟨.STATUS_CHECK, true⟩], [.authOk]⟩
    | some content =>
      match safe_read_file (some content) with
      | .ok _ => ⟨fs, [.statusReport], [⟨.STATUS_CHECK, true⟩], [.authOk, .readF .statusF]⟩
      | .error _ => ⟨fs, [.errorGeneric], [⟨.STATUS_ERROR, false⟩], [.authOk]⟩
  else
    ⟨fs, [], [⟨.UNAUTHORIZED_ACCESS, false⟩], [.authFail]⟩

/-- `/task` body (bot.py lines 391-451): argument check, sanitization, task
file write, status overwrite.  A `ValueError` — from the sanitizer or from
either `safe_write_file` size check — lands in the `except ValueError` arm
(`TASK_VALIDATION_FAILED` audit and an error reply). -/
def taskBody (uid authUid : Nat) (args : List (List Char)) (fs : FS) : BodyOut :=
  if uid = authUid then
    if args.isEmpty then ⟨fs, [.usageMsg], [], [.authOk]⟩
    else
      match sanitize_task_description (joinSpace args) with
      | .error _ => ⟨fs, [.invalidTask], [⟨.TASK_VALIDATION_FAILED, false⟩], [.authOk]⟩
      | .ok d =>
        match safe_write_file (renderTaskContent uid d) with
        | .error _ => ⟨fs, [.invalidTask], [⟨.TASK_VALIDATION_FAILED, false⟩], [.authOk]⟩
        | .ok _ =>
          match safe_write_file (renderStatusContent d) with
          | .error _ =>
            ⟨{ fs with tasks := fs.tasks ++ [(uid, d)] },
             [.invalidTask], [⟨.TASK_VALIDATION_FAILED, false⟩],
             [.authOk, .writeF .taskF]⟩
          | .ok statusContent =>
            ⟨{ fs with tasks := fs.tasks ++ [(uid, d)], statusFile := some statusContent },
             [.taskCreated], [⟨.TASK_CREATED, true⟩],
             [.authOk, .writeF .taskF, .writeF .statusF]⟩
  else
    ⟨fs, [], [⟨.UNAUTHORIZED_ACCESS, false⟩], [.authFail]⟩

/-- `/approve` body (bot.py lines 456-481): no pending request is a
success; otherwise read the request, write `APPROVED`, delete the request,
reply.  Any exception is caught with an error reply. -/
def approveBody (uid authUid : Nat) (fs : FS) : BodyOut :=
  if uid = authUid then
    match fs.approvalFile with
    | none => ⟨fs, [.noPending], [], [.authOk]⟩
    | some req =>
      match safe_read_file (some req) with
      | .error _ => ⟨fs, [.errorGeneric], [⟨.APPROVAL_ERROR, false⟩], [.authOk]⟩
      | .ok _ =>
        match safe_write_file approvedTok with
        | .error _ =>
          ⟨fs, [.errorGeneric], [⟨.APPROVAL_ERROR, false⟩], [.authOk, .readF .approvalF]⟩
        | .ok written =>
          ⟨{ fs with responseFile := some written, approvalFile := none },
           [.approvedMsg], [⟨.APPROVAL_GRANTED, true⟩],
           [.authOk, .readF .approvalF, .writeF .responseF, .deleteF .approvalF]⟩
  else
    ⟨fs, [], [⟨.UNAUTHORIZED_ACCESS, false⟩], [.authFail]⟩

/-- `/reject` body (bot.py lines 486-511): mirror of `/approve` writing
`REJECTED`. -/
def rejectBody (uid authUid : Nat) (fs : FS) : BodyOut :=
  if uid = authUid then
    match fs.approvalFile with
    | none => ⟨fs, [.noPending], [], [.authOk]⟩
    | some req =>
      match safe_read_file (some req) with
      | .error _ => ⟨fs, [.errorGeneric], [⟨.APPROVAL_ERROR, false⟩], [.authOk]⟩
      | .ok _ =>
        match safe_write_file rejectedTok with
        | .error _ =>
          ⟨fs, [.errorGeneric], [⟨.APPROVAL_ERROR, false⟩], [.authOk, .readF .approvalF]⟩
        | .ok written =>
          ⟨{ fs with responseFile := some written, approvalFile := none },
           [.rejectedMsg], [⟨.APPROVAL_REJECTED, true⟩],
           [.authOk, .readF .approvalF, .writeF .responseF, .deleteF .approvalF]⟩
  else
    ⟨fs, [], [⟨.UNAUTHORIZED_ACCESS, false⟩], [.authFail]⟩

/-- Dispatch to the command body.  Every body catches its own exceptions
(each `try` block ends in `except Exception`), so no body raises into the
wrappers; the breaker therefore records a success after every body run. -/
def runBody (uid authUid : Nat) (fs : FS) : Cmd → BodyOut
  | .start => startBody uid authUid fs
  | .ping => pingBody uid authUid fs
  | .status => statusBody uid authUid fs
  | .task args => taskBody uid authUid args fs
  | .approve => approveBody uid authUid fs
  | .reject => rejectBody uid authUid fs

/-- Whether the command's handler is wrapped by `@circuit_breaker`
(bot.py lines 356-357, 389-390, 454-455, 484-485; `/start` and `/ping`
carry only `@rate_limit`). -/
def guarded : Cmd → Bool
  | .start => false
  | .ping => false
  | _ => true

/-- One full inbound command.  Decorator application order
(`@rate_limit` above `@circuit_breaker` above the body) means the rate
limiter runs first, then the breaker for guarded commands, then the body —
whose first act is the authorization check.  A rate rejection replies and
raises; a breaker rejection raises without replying; a body run counts as
a breaker success, resetting the failure counter. -/
def handle (uid authUid : Nat) (now : ℚ) (rl : List ℚ) (cb : CBState) (fs : FS)
    (cmd : Cmd) : StepResult :=
  let kept := prune now rl
  if RATE_LIMIT_COMMANDS ≤ kept.length then
    ⟨kept, cb, fs, [.rateLimited], [⟨.RATE_LIMIT_EXCEEDED, false⟩], [.rateBlocked]⟩
  else
    let rl2 := kept ++ [now]
    if guarded cmd then
      if pyTruthy cb.openedAt then
        if now - cb.openedAt.getD 0 < CIRCUIT_BREAKER_TIMEOUT then
          ⟨rl2, cb, fs, [], [], [.rateOk, .breakerBlocked]⟩
        else
          let b := runBody uid authUid fs cmd
          ⟨rl2, ⟨0, none⟩, b.fs, b.replies, b.audits, .rateOk :: .breakerOk :: b.trace⟩
      else
        let b := runBody uid authUid fs cmd
        ⟨rl2, ⟨0, cb.openedAt⟩, b.fs, b.replies, b.audits, .rateOk :: .breakerOk :: b.trace⟩
    else
      let b := runBody uid authUid fs cmd
      ⟨rl2, cb, b.fs, b.replies, b.audits, .rateOk :: b.trace⟩


/-! ### Sanitizer lemmas -/

/-- Anatomy of a successful sanitization: the result is the trimmed input
and every check passed. -/
theorem sanitize_ok_iff (s d : List Char) :
    sanitize_task_description s = .ok d ↔
      d = pyStrip s ∧ d.length ≤ MAX_TASK_DESCRIPTION_LENGTH ∧
      allowedTaskMatch d = true ∧
      (d.contains '/' || d.contains '\\' || hasDotDot d) = false := by
  unfold sanitize_task_description
  constructor
  · intro h
    split at h
    · exact absurd h (by simp)
    · split at h
      · exact absurd h (by simp)
      · split at h
        · exact absurd h (by simp)
        · simp only [Except.ok.injEq] at h
          subst h
          refine ⟨rfl, by omega, by simp_all, by simp_all⟩
  · rintro ⟨rfl, hlen, hmatch, hpath⟩
    rw [if_neg (Nat.not_lt.mpr hlen), if_neg (by simp [hmatch]),
      if_neg (by simp only [hpath]; simp)]

/-- C7: `sanitize_task_description` trims whitespace first, then reports
the first violated check in the order too-long, forbidden-characters,
path-traversal, and returns an accepted string unchanged apart from the
trim.  ("Letters" and "digits" are the ASCII ranges of the source regex
`^[a-zA-Z0-9\s\-_.,!?]+$`.) -/
theorem C7_sanitizer_order_and_trim (s : List Char) :
    (MAX_TASK_DESCRIPTION_LENGTH < (pyStrip s).length →
      sanitize_task_description s = .error .tooLong) ∧
    ((pyStrip s).length ≤ MAX_TASK_DESCRIPTION_LENGTH →
      (∃ c ∈ pyStrip s, allowedTaskChar c = false) →
      sanitize_task_description s = .error .forbiddenChars) ∧
    ((pyStrip s).length ≤ MAX_TASK_DESCRIPTION_LENGTH →
      allowedTaskMatch (pyStrip s) = true →
      ((pyStrip s).contains '/' || (pyStrip s).contains '\\' || hasDotDot (pyStrip s)) = true →
      sanitize_task_description s = .error .pathTraversal) ∧
    (∀ t, sanitize_task_description s = .ok t → t = pyStrip s) := by
  refine ⟨?_, ?_, ?_, ?_⟩
  · intro h
    unfold sanitize_task_description
    rw [if_pos h]
  · rintro hlen ⟨c, hc, hbad⟩
    unfold sanitize_task_description
    have hall : (pyStrip s).all allowedTaskChar = false :=
      List.all_eq_false.mpr ⟨c, hc, by simp [hbad]⟩
    rw [if_neg (Nat.not_lt.mpr hlen), if_pos (by simp [allowedTaskMatch, hall])]
  · intro hlen hmatch hpath
    unfold sanitize_task_description
    rw [if_neg (Nat.not_lt.mpr hlen), if_neg (by simp [hmatch]), if_pos hpath]
  · intro t h
    exact ((sanitize_ok_iff s t).mp h).1

/-- C7 witness: the theorem applied at concrete inputs exercising each
error arm and the trim-preserving success arm. -/
theorem C7_witness :
    sanitize_task_description (List.replicate 501 'a') = .error .tooLong ∧
    sanitize_task_description "ok #".toList = .error .forbiddenChars ∧
    sanitize_task_description "a..b".toList = .error .pathTraversal ∧
    " hi ".toList ≠ pyStrip (" hi ".toList) ∧
    pyStrip (" hi ".toList) = "hi".toList := by
  have h1 : ∀ m, List.dropWhile isPySpace (List.replicate m 'a') = List.replicate m 'a' := by
    intro m
    cases m with
    | zero => rfl
    | succ k =>
      rw [List.replicate_succ, List.dropWhile_cons]
      simp [show isPySpace 'a' = false by decide]
  have hstrip : pyStrip (List.replicate 501 'a') = List.replicate 501 'a' := by
    rw [pyStrip, h1, List.reverse_replicate, h1, List.reverse_replicate]
  refine ⟨(C7_sanitizer_order_and_trim _).1 ?_,
    (C7_sanitizer_order_and_trim _).2.1 (by decide) ⟨'#', by decide, by decide⟩,
    (C7_sanitizer_order_and_trim _).2.2.1 (by decide) (by decide) (by decide),
    by decide, by decide⟩
  rw [hstrip, List.length_replicate]
  decide

/-- C8: for an existing file, `safe_read_file` fails `tooLarge` exactly
when its byte size strictly exceeds `max_size`; `safe_write_file` fails
`tooLarge` exactly when the UTF-8 encoding of the content strictly exceeds
`max_size`; a file or content of exactly `max_size` bytes is accepted by
both. -/
theorem C8_size_limits_strict (content c : List Char) (max_size : Nat) :
    (safe_read_file (some content) max_size = .error .tooLarge ↔
      max_size < utf8Len content) ∧
    (safe_write_file c max_size = .error .tooLarge ↔ max_size < utf8Len c) ∧
    (utf8Len content = max_size → safe_read_file (some content) max_size = .ok content) ∧
    (utf8Len c = max_size → safe_write_file c max_size = .ok c) := by
  refine ⟨?_, ?_, ?_, ?_⟩
  · simp only [safe_read_file]
    split
    · simp_all
    · simp_all
  · simp only [safe_write_file]
    split
    · simp_all
    · simp_all
  · intro h
    simp only [safe_read_file]
    rw [if_neg (by omega)]
  · intro h
    simp only [safe_write_file]
    rw [if_neg (by omega)]

/-- C8 witness: the theorem at a concrete two-byte file and content with
`max_size = 2`. -/
theorem C8_witness :
    safe_read_file (some "ab".toList) 2 = .ok ("ab".toList) ∧
    safe_write_file "ab".toList 2 = .ok ("ab".toList) :=
  ⟨(C8_size_limits_strict "ab".toList "ab".toList 2).2.2.1 (by decide),
   (C8_size_limits_strict "ab".toList "ab".toList 2).2.2.2 (by decide)⟩

/-! ### Circuit-breaker claims -/

/-- C4: a fifth accumulated failure of the wrapped operation opens the
breaker, recording the opening time; while open (opening time `t0 > 0`, as
every `time.time()` value is) with less than `CIRCUIT_BREAKER_TIMEOUT`
seconds elapsed, every call yields `CircuitBreakerOpen` with the state
untouched and the operation not invoked (the outcome is the same whether
the operation would succeed or fail); a success while closed resets the
failure counter to zero. -/
theorem C4_breaker_opens_blocks_resets (s : CBState) (now : ℚ) :
    (pyTruthy s.openedAt = false → CIRCUIT_BREAKER_THRESHOLD ≤ s.failures + 1 →
      circuitBreakerCall s now false = (⟨s.failures + 1, some now⟩, .failedThrough)) ∧
    (∀ (t0 : ℚ) (b : Bool), s.openedAt = some t0 → 0 < t0 →
      now - t0 < CIRCUIT_BREAKER_TIMEOUT →
      circuitBreakerCall s now b = (s, .rejectedOpen)) ∧
    (pyTruthy s.openedAt = false →
      circuitBreakerCall s now true = ({ s with failures := 0 }, .succeeded)) := by
  refine ⟨?_, ?_, ?_⟩
  · intro hclosed hthr
    unfold circuitBreakerCall cbRunOp
    rw [if_neg (by simp [hclosed])]
    simp [hthr]
  · intro t0 b hopen ht0 helapsed
    unfold circuitBreakerCall
    rw [if_pos (by simp [pyTruthy, hopen]; exact ne_of_gt ht0),
      if_pos (by simp [hopen]; exact helapsed)]
  · intro hclosed
    unfold circuitBreakerCall cbRunOp
    rw [if_neg (by simp [hclosed])]
    simp

/-- C4 witness: the theorem applied at a closed state with four prior
failures, at an open state inside the cooldown, and at a closed success. -/
theorem C4_witness :
    circuitBreakerCall ⟨4, none⟩ 7 false = (⟨5, some 7⟩, .failedThrough) ∧
    circuitBreakerCall ⟨5, some 7⟩ 100 true = (⟨5, some 7⟩, .rejectedOpen) ∧
    circuitBreakerCall ⟨3, none⟩ 7 true = (⟨0, none⟩, .succeeded) :=
  ⟨(C4_breaker_opens_blocks_resets ⟨4, none⟩ 7).1 (by decide) (by decide),
   (C4_breaker_opens_blocks_resets ⟨5, some 7⟩ 100).2.1 7 true rfl (by norm_num)
     (by norm_num [CIRCUIT_BREAKER_TIMEOUT]),
   (C4_breaker_opens_blocks_resets ⟨3, none⟩ 7).2.2 (by decide)⟩

/-- The behaviour C2 asserts for a probe call after the cooldown: allowed
through, and a probe failure re-opens the breaker with the cooldown
restarted from the probe's time. -/
def cbProbeReopensClaim : Prop :=
  ∀ (f : Nat) (t0 now : ℚ), 0 < t0 → CIRCUIT_BREAKER_TIMEOUT ≤ now - t0 →
    (circuitBreakerCall ⟨f, some t0⟩ now false).2 ≠ .rejectedOpen ∧
    ((circuitBreakerCall ⟨f, some t0⟩ now false).1).openedAt = some now

/-- C2 counterexample: with the breaker opened at time 1 after five
failures, a failing probe at time 301 (cooldown elapsed) does NOT re-open
the breaker: the code reset both counters before the probe, so the single
probe failure only brings the counter to 1 and the breaker stays closed. -/
theorem C2_counterexample : ¬ cbProbeReopensClaim := by
  intro h
  have h2 := (h 5 1 301 (by norm_num) (by norm_num [CIRCUIT_BREAKER_TIMEOUT])).2
  rw [show circuitBreakerCall ⟨5, some 1⟩ 301 false = (⟨1, none⟩, .failedThrough) by
    unfold circuitBreakerCall cbRunOp
    norm_num [pyTruthy, CIRCUIT_BREAKER_TIMEOUT, CIRCUIT_BREAKER_THRESHOLD]] at h2
  simp at h2

/-- C2 (amended): if the breaker is open (opened at `t0 > 0`) and at least
`CIRCUIT_BREAKER_TIMEOUT` seconds have elapsed, the next call is allowed
through to the wrapped operation after the breaker resets to closed with
zero failures; if that single probe call fails, the failure counter
becomes 1 and the breaker remains closed — it does not re-open until the
threshold of 5 failures accumulates again. -/
theorem C2_probe_after_timeout (f : Nat) (t0 now : ℚ) (b : Bool)
    (ht0 : 0 < t0) (helapsed : CIRCUIT_BREAKER_TIMEOUT ≤ now - t0) :
    circuitBreakerCall ⟨f, some t0⟩ now b = cbRunOp ⟨0, none⟩ now b ∧
    circuitBreakerCall ⟨f, some t0⟩ now false = (⟨1, none⟩, .failedThrough) := by
  have hth : circuitBreakerCall ⟨f, some t0⟩ now b = cbRunOp ⟨0, none⟩ now b := by
    unfold circuitBreakerCall
    rw [if_pos (by simp [pyTruthy]; exact ne_of_gt ht0), if_neg (by simp; linarith)]
  refine ⟨hth, ?_⟩
  unfold circuitBreakerCall
  rw [if_pos (by simp [pyTruthy]; exact ne_of_gt ht0), if_neg (by simp; linarith)]
  unfold cbRunOp
  simp [CIRCUIT_BREAKER_THRESHOLD]

/-- C2 witness: the amended theorem at the counterexample's input. -/
theorem C2_witness :
    circuitBreakerCall ⟨5, some 1⟩ 301 false = (⟨1, none⟩, .failedThrough) :=
  (C2_probe_after_timeout 5 1 301 false (by norm_num)
    (by norm_num [CIRCUIT_BREAKER_TIMEOUT])).2

/-! ### Rate-limiter window invariant -/

/-- `recentP a s`: the stored timestamp `s` is still inside the window of
a check made at time `a`. -/
def recentP (a s : ℚ) : Bool := decide (a - s < RATE_LIMIT_WINDOW)

theorem prune_eq (now : ℚ) (l : List ℚ) : prune now l = l.filter (recentP now) := rfl

/-- Re-pruning at a later time prunes at least as much: for `t ≤ u`,
filtering by recency at `t` and then at `u` is filtering at `u` alone. -/
theorem filter_recent_mono (t u : ℚ) (htu : t ≤ u) (l : List ℚ) :
    (l.filter (recentP t)).filter (recentP u) = l.filter (recentP u) := by
  rw [List.filter_filter]
  apply List.filter_congr
  intro s _
  by_cases hu : u - s < RATE_LIMIT_WINDOW
  · have ht : t - s < RATE_LIMIT_WINDOW := by linarith
    simp [recentP, hu, ht]
  · simp [recentP, hu]

/-- Key inductive invariant: run the limiter over calls `ts` (sorted,
non-decreasing) from stored list `st`, where `st` holds the same
still-recent timestamps as the accepted history `H`.  Then every accepted
call, at the moment of its acceptance, saw strictly fewer than
`RATE_LIMIT_COMMANDS` accepted timestamps within its own trailing
window. -/
theorem rl_accept_bound (ts : List ℚ) :
    ∀ (H st : List ℚ),
      List.Sorted (· ≤ ·) ts →
      (∀ u ∈ ts, st.filter (recentP u) = H.filter (recentP u)) →
      ∀ (B : List ℚ) (a : ℚ) (C : List ℚ),
        rlAccepts st ts = B ++ a :: C →
        (H ++ B).countP (recentP a) < RATE_LIMIT_COMMANDS := by
  induction ts with
  | nil =>
    intro H st _ _ B a C h
    simp [rlAccepts] at h
  | cons t rest ih =>
    intro H st hsort hinv B a C heq
    have hrest : List.Sorted (· ≤ ·) rest := (List.sorted_cons.mp hsort).2
    have hle : ∀ u ∈ rest, t ≤ u := (List.sorted_cons.mp hsort).1
    by_cases hlim : RATE_LIMIT_COMMANDS ≤ (prune t st).length
    · have hstep : rlStep st t = (prune t st, false) := by
        unfold rlStep
        rw [if_pos hlim]
      rw [rlAccepts, hstep] at heq
      simp only [Bool.false_eq_true, if_false] at heq
      refine ih H (prune t st) hrest ?_ B a C heq
      intro u hu
      rw [prune_eq, filter_recent_mono t u (hle u hu) st]
      exact hinv u (List.mem_cons_of_mem _ hu)
    · have hlt : (prune t st).length < RATE_LIMIT_COMMANDS := Nat.lt_of_not_le hlim
      have hstep : rlStep st t = (prune t st ++ [t], true) := by
        unfold rlStep
        rw [if_neg hlim]
      rw [rlAccepts, hstep] at heq
      simp only [if_true] at heq
      cases B with
      | nil =>
        simp only [List.nil_append, List.cons.injEq] at heq
        obtain ⟨rfl, -⟩ := heq
        rw [List.append_nil, List.countP_eq_length_filter, ← hinv t (by simp), ← prune_eq]
        exact hlt
      | cons b B' =>
        simp only [List.cons_append, List.cons.injEq] at heq
        obtain ⟨rfl, heq'⟩ := heq
        have hmain := ih (H ++ [t]) (prune t st ++ [t]) hrest ?_ B' a C heq'
        · rw [show H ++ t :: B' = (H ++ [t]) ++ B' by simp]
          exact hmain
        · intro u hu
          rw [List.filter_append, List.filter_append, prune_eq,
            filter_recent_mono t u (hle u hu) st, hinv u (List.mem_cons_of_mem _ hu)]

/-- Acceptance criterion for a run from the empty stored list: every
accepted call saw strictly fewer than the limit of accepted timestamps
inside its own trailing window. -/
theorem rl_run_accept_bound (calls : List ℚ) (h : List.Sorted (· ≤ ·) calls) :
    ∀ (B : List ℚ) (a : ℚ) (C : List ℚ),
      rlAccepts [] calls = B ++ a :: C →
      B.countP (recentP a) < RATE_LIMIT_COMMANDS := by
  intro B a C heq
  have := rl_accept_bound calls [] [] h (fun _ _ => rfl) B a C heq
  simpa using this

/-- From a count of at least `n + 1` matching elements, extract the
`(n+1)`-st match together with the prefix holding exactly `n` matches. -/
theorem countP_extract {α : Type} (p : α → Bool) :
    ∀ (A : List α) (n : Nat), n + 1 ≤ A.countP p →
      ∃ B a C, A = B ++ a :: C ∧ p a = true ∧ B.countP p = n := by
  intro A
  induction A with
  | nil => intro n h; simp at h
  | cons x A' ih =>
    intro n h
    by_cases hx : p x = true
    · cases n with
      | zero => exact ⟨[], x, A', by simp, hx, by simp⟩
      | succ m =>
        have h' : m + 1 ≤ A'.countP p := by
          rw [List.countP_cons, hx] at h
          simp at h
          omega
        obtain ⟨B, a, C, hA, hpa, hc⟩ := ih m h'
        exact ⟨x :: B, a, C, by rw [hA, List.cons_append], hpa,
          by simp [List.countP_cons, hx, hc]⟩
    · have hx' : p x = false := by simpa using hx
      have h' : n + 1 ≤ A'.countP p := by
        rw [List.countP_cons, hx'] at h
        simp at h
        exact h
      obtain ⟨B, a, C, hA, hpa, hc⟩ := ih n h'
      exact ⟨x :: B, a, C, by rw [hA, List.cons_append], hpa,
        by simp [List.countP_cons, hx', hc]⟩

/-- Combinatorial step: if every element of `A`, where it sits, is
preceded by fewer than the limit of elements inside its own trailing
window, then no trailing window ending at any `T` holds more than the
limit of elements of `A`. -/
theorem window_bound_of_accept_bound (A : List ℚ) (T : ℚ)
    (hQ : ∀ B a C, A = B ++ a :: C → B.countP (recentP a) < RATE_LIMIT_COMMANDS) :
    A.countP (inWindow T) ≤ RATE_LIMIT_COMMANDS := by
  by_contra hcon
  push_neg at hcon
  obtain ⟨B, a, C, heq, hpa, hcB⟩ := countP_extract (inWindow T) A RATE_LIMIT_COMMANDS hcon
  have h1 := hQ B a C heq
  have h2 : B.countP (inWindow T) ≤ B.countP (recentP a) := by
    apply List.countP_mono_left
    intro s _ hs
    simp only [inWindow, Bool.and_eq_true, decide_eq_true_eq] at hs hpa
    simp only [recentP, decide_eq_true_eq, RATE_LIMIT_WINDOW] at *
    obtain ⟨hs1, hs2⟩ := hs
    obtain ⟨hp1, hp2⟩ := hpa
    linarith
  omega

/-- The guarantee C1 asserts for arbitrary (not necessarily
time-ordered) call sequences: starting from an empty record, no trailing
`RATE_LIMIT_WINDOW`-second interval ever contains more than
`RATE_LIMIT_COMMANDS` accepted calls. -/
def rateWindowClaimAllTimestamps : Prop :=
  ∀ (calls : List ℚ) (T : ℚ),
    windowCount T (rlAccepts [] calls) ≤ RATE_LIMIT_COMMANDS

/-- C1 counterexample: over arbitrary timestamps the guarantee fails.
Ten calls at time 0 are accepted; a call at time 70 prunes all records
and is accepted; a call back at time 30 then sees only the record at 70
(still "recent", as 30 - 70 < 60) and is accepted too — eleven accepted
calls lie inside the trailing 60-second window ending at T = 30. -/
theorem C1_counterexample : ¬ rateWindowClaimAllTimestamps := by
  intro h
  have h2 := h [0, 0, 0, 0, 0, 0, 0, 0, 0, 0, 70, 30] 30
  norm_num [rlAccepts, rlStep, prune, RATE_LIMIT_WINDOW, RATE_LIMIT_COMMANDS,
    windowCount, inWindow, List.countP_cons] at h2

/-- C1 (amended): each check prunes the identity's records to those
strictly younger than `RATE_LIMIT_WINDOW` seconds (entries aged exactly 60
seconds are dropped too), rejects without recording the current timestamp
exactly when the kept count has reached `RATE_LIMIT_COMMANDS`, and
otherwise appends the current timestamp and accepts; consequently, for
every sequence of calls at non-decreasing timestamps (wall-clock time not
running backwards), no trailing 60-second interval `(T - 60, T]` ever
contains more than 10 accepted calls. -/
theorem C1_rate_limit_window_bound :
    (∀ (st : List ℚ) (t : ℚ),
      ((rlStep st t).2 = true ↔ (prune t st).length < RATE_LIMIT_COMMANDS) ∧
      ((rlStep st t).2 = false → (rlStep st t).1 = prune t st) ∧
      ((rlStep st t).2 = true → (rlStep st t).1 = prune t st ++ [t])) ∧
    (∀ calls : List ℚ, List.Sorted (· ≤ ·) calls →
      ∀ T : ℚ, windowCount T (rlAccepts [] calls) ≤ RATE_LIMIT_COMMANDS) := by
  constructor
  · intro st t
    by_cases hlim : RATE_LIMIT_COMMANDS ≤ (prune t st).length
    · have hst : rlStep st t = (prune t st, false) := by
        unfold rlStep
        rw [if_pos hlim]
      rw [hst]
      exact ⟨by simp; omega, fun _ => rfl, by simp⟩
    · have hst : rlStep st t = (prune t st ++ [t], true) := by
        unfold rlStep
        rw [if_neg hlim]
      rw [hst]
      exact ⟨by simp; omega, by simp, fun _ => rfl⟩
  · intro calls hs T
    exact window_bound_of_accept_bound _ T (rl_run_accept_bound calls hs)

/-- C1 witness: the amended window bound applied to a concrete sorted
call sequence, and the per-call clauses at a concrete state. -/
theorem C1_witness :
    windowCount 5 (rlAccepts [] [0, 1, 2]) ≤ RATE_LIMIT_COMMANDS ∧
    (rlStep [0] 1).1 = prune 1 [0] ++ [1] :=
  ⟨C1_rate_limit_window_bound.2 [0, 1, 2] (by norm_num [List.sorted_cons]) 5,
   (C1_rate_limit_window_bound.1 [0] 1).2.2
     (by norm_num [rlStep, prune, RATE_LIMIT_WINDOW, RATE_LIMIT_COMMANDS])⟩

/-! ### Orchestrator helper lemmas -/

/-- File-access events of a trace. -/
def isFsEv : Ev → Bool
  | .readF _ => true
  | .writeF _ => true
  | .deleteF _ => true
  | _ => false

/-- The file accesses performed during a command, in order. -/
def fsEvents (t : List Ev) : List Ev := t.filter isFsEv

/-- A command handled for an unauthorized caller runs its body up to the
authorization check and stops: files untouched, an `UNAUTHORIZED_ACCESS`
failure audit, a reply only for `/start`. -/
theorem runBody_unauth (uid authUid : Nat) (fs : FS) (cmd : Cmd) (h : uid ≠ authUid) :
    runBody uid authUid fs cmd =
      ⟨fs, if cmd = .start then [.unauthorized] else [],
        [⟨.UNAUTHORIZED_ACCESS, false⟩], [.authFail]⟩ := by
  cases cmd <;>
    simp [runBody, startBody, pingBody, statusBody, taskBody, approveBody, rejectBody, h]

/-- Every body's first trace event is the outcome of the authorization
check. -/
theorem runBody_trace_head (uid authUid : Nat) (fs : FS) (cmd : Cmd) :
    (runBody uid authUid fs cmd).trace.head? =
      some (if uid = authUid then Ev.authOk else Ev.authFail) := by
  by_cases h : uid = authUid
  · cases cmd <;>
      simp only [runBody, startBody, pingBody, statusBody, taskBody, approveBody,
        rejectBody, h, if_pos rfl, if_true] <;>
      (repeat' split) <;> simp
  · rw [runBody_unauth uid authUid fs cmd h]
    simp [h]

/-- Every body sends at most one reply. -/
theorem runBody_replies_le_one (uid authUid : Nat) (fs : FS) (cmd : Cmd) :
    (runBody uid authUid fs cmd).replies.length ≤ 1 := by
  by_cases h : uid = authUid
  · cases cmd <;>
      simp only [runBody, startBody, pingBody, statusBody, taskBody, approveBody,
        rejectBody, h, if_pos rfl, if_true] <;>
      (repeat' split) <;> simp
  · rw [runBody_unauth uid authUid fs cmd h]
    split <;> simp

/-- An authorized body always sends exactly one reply. -/
theorem runBody_auth_replies_one (uid authUid : Nat) (fs : FS) (cmd : Cmd)
    (h : uid = authUid) :
    (runBody uid authUid fs cmd).replies.length = 1 := by
  cases cmd <;>
    simp only [runBody, startBody, pingBody, statusBody, taskBody, approveBody,
      rejectBody, h, if_pos rfl, if_true] <;>
    (repeat' split) <;> simp

/-- `handle` when the rate gate rejects: the pruned list is stored, the
current timestamp is not recorded, and nothing further runs. -/
theorem handle_rate_blocked (uid authUid : Nat) (now : ℚ) (rl : List ℚ) (cb : CBState)
    (fs : FS) (cmd : Cmd) (h : RATE_LIMIT_COMMANDS ≤ (prune now rl).length) :
    handle uid authUid now rl cb fs cmd =
      ⟨prune now rl, cb, fs, [.rateLimited], [⟨.RATE_LIMIT_EXCEEDED, false⟩],
        [.rateBlocked]⟩ := by
  unfold handle
  rw [if_pos h]

/-- `handle` when the rate gate passes but the breaker blocks: the call's
timestamp was already recorded, then `CircuitBreakerOpen` propagates with
no reply, no audit record, and no body run. -/
theorem handle_breaker_blocked (uid authUid : Nat) (now : ℚ) (rl : List ℚ) (cb : CBState)
    (fs : FS) (cmd : Cmd) (hr : ¬ RATE_LIMIT_COMMANDS ≤ (prune now rl).length)
    (hg : guarded cmd = true) (hb : cbBlocks cb now = true) :
    handle uid authUid now rl cb fs cmd =
      ⟨prune now rl ++ [now], cb, fs, [], [], [.rateOk, .breakerBlocked]⟩ := by
  rw [cbBlocks, Bool.and_eq_true] at hb
  unfold handle
  rw [if_neg hr, if_pos hg, if_pos hb.1, if_pos (of_decide_eq_true hb.2)]

/-- `handle` when both gates pass: the body runs and determines the
files, replies and audits; the trace is the gate events followed by the
body's trace. -/
theorem handle_pass (uid authUid : Nat) (now : ℚ) (rl : List ℚ) (cb : CBState)
    (fs : FS) (cmd : Cmd) (hr : ¬ RATE_LIMIT_COMMANDS ≤ (prune now rl).length)
    (hp : guarded cmd = false ∨ cbBlocks cb now = false) :
    ∃ cb2 : CBState,
      handle uid authUid now rl cb fs cmd =
        ⟨prune now rl ++ [now], cb2, (runBody uid authUid fs cmd).fs,
          (runBody uid authUid fs cmd).replies, (runBody uid authUid fs cmd).audits,
          (if guarded cmd then [Ev.rateOk, Ev.breakerOk] else [Ev.rateOk]) ++
            (runBody uid authUid fs cmd).trace⟩ := by
  by_cases hg : guarded cmd = true
  · have hb : cbBlocks cb now = false := by
      rcases hp with h | h
      · rw [hg] at h
        exact absurd h (by simp)
      · exact h
    by_cases htr : pyTruthy cb.openedAt = true
    · have hnb : ¬(now - cb.openedAt.getD 0 < CIRCUIT_BREAKER_TIMEOUT) := by
        rw [cbBlocks, htr, Bool.true_and] at hb
        simpa using of_decide_eq_false hb
      refine ⟨⟨0, none⟩, ?_⟩
      unfold handle
      rw [if_neg hr, if_pos hg, if_pos htr, if_neg hnb, hg]
      simp
    · refine ⟨⟨0, cb.openedAt⟩, ?_⟩
      unfold handle
      rw [if_neg hr, if_pos hg, if_neg (by simpa using htr), hg]
      simp
  · have hg' : guarded cmd = false := by simpa using hg
    refine ⟨cb, ?_⟩
    unfold handle
    rw [if_neg hr, if_neg (by simp [hg']), hg']
    simp

/-! ### Gate-order claim -/

/-- The ordering C3 asserts: for every inbound command, the very first
protective gate evaluated is the authorization check. -/
def authGateFirstClaim : Prop :=
  ∀ (uid authUid : Nat) (now : ℚ) (rl : List ℚ) (cb : CBState) (fs : FS) (cmd : Cmd),
    ∃ e, (handle uid authUid now rl cb fs cmd).trace.head? = some e ∧
      (e = Ev.authOk ∨ e = Ev.authFail)

/-- C3 counterexample: the decorators put the rate limiter first
(`@rate_limit` wraps `@circuit_breaker` wraps the body), and the
authorization check lives inside the body; an unauthorized `/ping` with an
empty rate window first records the call in the rate limiter — the first
gate evaluated is the rate check, not authorization. -/
theorem C3_counterexample : ¬ authGateFirstClaim := by
  intro h
  obtain ⟨e, he, hor⟩ := h 2 1 0 [] ⟨0, none⟩ ⟨none, none, none, []⟩ .ping
  rw [show (handle 2 1 0 [] ⟨0, none⟩ ⟨none, none, none, []⟩ .ping).trace =
      [Ev.rateOk, Ev.authFail] from by
    norm_num [handle, prune, RATE_LIMIT_WINDOW, RATE_LIMIT_COMMANDS, guarded,
      runBody, pingBody]] at he
  simp only [List.head?_cons, Option.some.injEq] at he
  subst he
  simp at hor

/-- C3 (amended): the gates run in the order rate limiter, then circuit
breaker (for the breaker-guarded commands `/status` `/task` `/approve`
`/reject`; `/start` and `/ping` have no breaker gate), then the
authorization check as the body's first act; a failed gate short-circuits:
a rate rejection ends the command with nothing else run, a breaker
rejection ends it without reaching the body, and an unauthorized caller's
body stops at the auth check, performing no file access. -/
theorem C3_gate_order (uid authUid : Nat) (now : ℚ) (rl : List ℚ) (cb : CBState)
    (fs : FS) (cmd : Cmd) :
    (RATE_LIMIT_COMMANDS ≤ (prune now rl).length →
      (handle uid authUid now rl cb fs cmd).trace = [.rateBlocked] ∧
      (handle uid authUid now rl cb fs cmd).fs = fs ∧
      (handle uid authUid now rl cb fs cmd).cb = cb) ∧
    ((prune now rl).length < RATE_LIMIT_COMMANDS → guarded cmd = true →
      cbBlocks cb now = true →
      (handle uid authUid now rl cb fs cmd).trace = [.rateOk, .breakerBlocked] ∧
      (handle uid authUid now rl cb fs cmd).fs = fs) ∧
    ((prune now rl).length < RATE_LIMIT_COMMANDS →
      (guarded cmd = false ∨ cbBlocks cb now = false) →
      (handle uid authUid now rl cb fs cmd).trace =
        (if guarded cmd then [Ev.rateOk, Ev.breakerOk] else [Ev.rateOk]) ++
          (runBody uid authUid fs cmd).trace ∧
      (runBody uid authUid fs cmd).trace.head? =
        some (if uid = authUid then Ev.authOk else Ev.authFail) ∧
      (uid ≠ authUid → (runBody uid authUid fs cmd).trace = [Ev.authFail])) := by
  refine ⟨?_, ?_, ?_⟩
  · intro h
    rw [handle_rate_blocked uid authUid now rl cb fs cmd h]
    exact ⟨rfl, rfl, rfl⟩
  · intro hr hg hb
    rw [handle_breaker_blocked uid authUid now rl cb fs cmd (Nat.not_le.mpr hr) hg hb]
    exact ⟨rfl, rfl⟩
  · intro hr hp
    obtain ⟨cb2, hh⟩ := handle_pass uid authUid now rl cb fs cmd (Nat.not_le.mpr hr) hp
    rw [hh]
    refine ⟨rfl, runBody_trace_head uid authUid fs cmd, ?_⟩
    intro hne
    rw [runBody_unauth uid authUid fs cmd hne]

/-- C3 witness: the amended theorem at concrete inputs: a full window, a
blocking breaker, and an unauthorized pass-through call. -/
theorem C3_witness :
    (handle 1 1 30 [0, 0, 0, 0, 0, 0, 0, 0, 0, 0] ⟨0, none⟩ ⟨none, none, none, []⟩
      .ping).trace = [.rateBlocked] ∧
    (handle 1 1 30 [] ⟨5, some 1⟩ ⟨none, none, none, []⟩ .status).trace =
      [.rateOk, .breakerBlocked] ∧
    (handle 2 1 30 [] ⟨0, none⟩ ⟨none, none, none, []⟩ .ping).trace =
      [Ev.rateOk] ++ (runBody 2 1 ⟨none, none, none, []⟩ .ping).trace :=
  ⟨((C3_gate_order 1 1 30 [0, 0, 0, 0, 0, 0, 0, 0, 0, 0] ⟨0, none⟩ ⟨none, none, none, []⟩
      .ping).1 (by norm_num [prune, RATE_LIMIT_WINDOW, RATE_LIMIT_COMMANDS])).1,
   ((C3_gate_order 1 1 30 [] ⟨5, some 1⟩ ⟨none, none, none, []⟩ .status).2.1
      (by norm_num [prune, RATE_LIMIT_COMMANDS]) rfl
      (by norm_num [cbBlocks, pyTruthy, CIRCUIT_BREAKER_TIMEOUT])).1,
   by
    have h3 := (C3_gate_order 2 1 30 [] ⟨0, none⟩ ⟨none, none, none, []⟩ .ping).2.2
      (by norm_num [prune, RATE_LIMIT_COMMANDS]) (Or.inl rfl)
    simpa [guarded] using h3.1⟩

/-! ### Reply-on-failure claim -/

/-- A command invocation failed at some stage: a gate rejected it, or an
audit record marked FAILURE was emitted (unauthorized access, validation
failure, file error). -/
def stepFailed (r : StepResult) : Bool :=
  r.trace.contains .rateBlocked || r.trace.contains .breakerBlocked ||
  r.trace.contains .authFail || r.audits.any (fun a => !a.success)

/-- What C5 asserts: every failing invocation still sends exactly one
reply. -/
def everyFailureRepliesClaim : Prop :=
  ∀ (uid authUid : Nat) (now : ℚ) (rl : List ℚ) (cb : CBState) (fs : FS) (cmd : Cmd),
    stepFailed (handle uid authUid now rl cb fs cmd) = true →
    (handle uid authUid now rl cb fs cmd).replies.length = 1

/-- C5 counterexample: an authorized `/status` arriving while the breaker
is open inside its cooldown fails (`CircuitBreakerOpen` propagates out of
the wrapper) and sends no reply at all — the raise happens before any
`reply_text` and nothing catches it. -/
theorem C5_counterexample : ¬ everyFailureRepliesClaim := by
  intro h
  have h2 := h 1 1 2 [] ⟨5, some 1⟩ ⟨none, none, none, []⟩ .status
  rw [show handle 1 1 2 [] ⟨5, some 1⟩ ⟨none, none, none, []⟩ .status =
      ⟨[2], ⟨5, some 1⟩, ⟨none, none, none, []⟩, [], [], [.rateOk, .breakerBlocked]⟩ from by
    norm_num [handle, prune, RATE_LIMIT_WINDOW, RATE_LIMIT_COMMANDS, guarded,
      pyTruthy, CIRCUIT_BREAKER_TIMEOUT]] at h2
  simp [stepFailed] at h2

/-- C5 (amended): every invocation sends at most one reply; a rate-limit
rejection sends exactly one; a breaker rejection sends none; an
unauthorized call that reaches its body sends one reply for `/start` and
none for every other command; an authorized call whose gates pass sends
exactly one reply whether its body succeeds or fails internally. -/
theorem C5_reply_discipline (uid authUid : Nat) (now : ℚ) (rl : List ℚ) (cb : CBState)
    (fs : FS) (cmd : Cmd) :
    (handle uid authUid now rl cb fs cmd).replies.length ≤ 1 ∧
    (RATE_LIMIT_COMMANDS ≤ (prune now rl).length →
      (handle uid authUid now rl cb fs cmd).replies = [.rateLimited]) ∧
    ((prune now rl).length < RATE_LIMIT_COMMANDS → guarded cmd = true →
      cbBlocks cb now = true → (handle uid authUid now rl cb fs cmd).replies = []) ∧
    ((prune now rl).length < RATE_LIMIT_COMMANDS →
      (guarded cmd = false ∨ cbBlocks cb now = false) → uid ≠ authUid →
      (handle uid authUid now rl cb fs cmd).replies =
        (if cmd = .start then [.unauthorized] else [])) ∧
    ((prune now rl).length < RATE_LIMIT_COMMANDS →
      (guarded cmd = false ∨ cbBlocks cb now = false) → uid = authUid →
      (handle uid authUid now rl cb fs cmd).replies.length = 1) := by
  refine ⟨?_, ?_, ?_, ?_, ?_⟩
  · by_cases h : RATE_LIMIT_COMMANDS ≤ (prune now rl).length
    · rw [handle_rate_blocked uid authUid now rl cb fs cmd h]
      simp
    · by_cases hg : guarded cmd = true
      · by_cases hb : cbBlocks cb now = true
        · rw [handle_breaker_blocked uid authUid now rl cb fs cmd h hg hb]
          simp
        · obtain ⟨cb2, hh⟩ := handle_pass uid authUid now rl cb fs cmd h
            (Or.inr (by simpa using hb))
          rw [hh]
          exact runBody_replies_le_one uid authUid fs cmd
      · obtain ⟨cb2, hh⟩ := handle_pass uid authUid now rl cb fs cmd h
          (Or.inl (by simpa using hg))
        rw [hh]
        exact runBody_replies_le_one uid authUid fs cmd
  · intro h
    rw [handle_rate_blocked uid authUid now rl cb fs cmd h]
  · intro hr hg hb
    rw [handle_breaker_blocked uid authUid now rl cb fs cmd (Nat.not_le.mpr hr) hg hb]
  · intro hr hp hne
    obtain ⟨cb2, hh⟩ := handle_pass uid authUid now rl cb fs cmd (Nat.not_le.mpr hr) hp
    rw [hh]
    show (runBody uid authUid fs cmd).replies = _
    rw [runBody_unauth uid authUid fs cmd hne]
  · intro hr hp heq
    obtain ⟨cb2, hh⟩ := handle_pass uid authUid now rl cb fs cmd (Nat.not_le.mpr hr) hp
    rw [hh]
    exact runBody_auth_replies_one uid authUid fs cmd heq

/-- C5 witness: the amended theorem at concrete inputs: a rate-limited
call (one reply), a breaker-blocked call (no reply), an unauthorized ping
(no reply), and an authorized ping (one reply). -/
theorem C5_witness :
    (handle 1 1 30 [0, 0, 0, 0, 0, 0, 0, 0, 0, 0] ⟨0, none⟩ ⟨none, none, none, []⟩
      .ping).replies = [.rateLimited] ∧
    (handle 1 1 30 [] ⟨5, some 1⟩ ⟨none, none, none, []⟩ .status).replies = [] ∧
    (handle 2 1 30 [] ⟨0, none⟩ ⟨none, none, none, []⟩ .ping).replies = [] ∧
    (handle 1 1 30 [] ⟨0, none⟩ ⟨none, none, none, []⟩ .ping).replies.length = 1 :=
  ⟨(C5_reply_discipline 1 1 30 [0, 0, 0, 0, 0, 0, 0, 0, 0, 0] ⟨0, none⟩
      ⟨none, none, none, []⟩ .ping).2.1
      (by norm_num [prune, RATE_LIMIT_WINDOW, RATE_LIMIT_COMMANDS]),
   (C5_reply_discipline 1 1 30 [] ⟨5, some 1⟩ ⟨none, none, none, []⟩ .status).2.2.1
      (by norm_num [prune, RATE_LIMIT_COMMANDS]) rfl
      (by norm_num [cbBlocks, pyTruthy, CIRCUIT_BREAKER_TIMEOUT]),
   (C5_reply_discipline 2 1 30 [] ⟨0, none⟩ ⟨none, none, none, []⟩ .ping).2.2.2.1
      (by norm_num [prune, RATE_LIMIT_COMMANDS]) (Or.inl rfl) (by norm_num),
   (C5_reply_discipline 1 1 30 [] ⟨0, none⟩ ⟨none, none, none, []⟩ .ping).2.2.2.2
      (by norm_num [prune, RATE_LIMIT_COMMANDS]) (Or.inl rfl) rfl⟩

/-! ### Unauthorized-caller claim -/

/-- What C9 asserts for every command sent by a non-authorized identity:
an `UNAUTHORIZED_ACCESS` failure audit, and the unauthorized reply for
`/start` or silence for every other command (with no file touched). -/
def unauthorizedOutcomeClaim : Prop :=
  ∀ (uid authUid : Nat) (now : ℚ) (rl : List ℚ) (cb : CBState) (fs : FS) (cmd : Cmd),
    uid ≠ authUid →
    (⟨AuditKind.UNAUTHORIZED_ACCESS, false⟩ : AuditRec) ∈
      (handle uid authUid now rl cb fs cmd).audits ∧
    (handle uid authUid now rl cb fs cmd).replies =
      (if cmd = .start then [Reply.unauthorized] else []) ∧
    fsEvents (handle uid authUid now rl cb fs cmd).trace = []

/-- C9 counterexample: a rate-limited unauthorized `/ping` never reaches
the authorization check — the rate limiter rejects first, so the reply is
the rate-limit message (not silence) and the only audit record is
`RATE_LIMIT_EXCEEDED`, with no `UNAUTHORIZED_ACCESS` record at all. -/
theorem C9_counterexample : ¬ unauthorizedOutcomeClaim := by
  intro h
  have h2 := h 2 1 30 [0, 0, 0, 0, 0, 0, 0, 0, 0, 0] ⟨0, none⟩ ⟨none, none, none, []⟩
    .ping (by norm_num)
  rw [show handle 2 1 30 [0, 0, 0, 0, 0, 0, 0, 0, 0, 0] ⟨0, none⟩ ⟨none, none, none, []⟩
        .ping =
      ⟨[0, 0, 0, 0, 0, 0, 0, 0, 0, 0], ⟨0, none⟩, ⟨none, none, none, []⟩,
        [.rateLimited], [⟨.RATE_LIMIT_EXCEEDED, false⟩], [.rateBlocked]⟩ from by
    norm_num [handle, prune, RATE_LIMIT_WINDOW, RATE_LIMIT_COMMANDS]] at h2
  simp at h2

/-- C9 (amended): for every command sent by a non-authorized identity that
passes the rate limiter and (for breaker-guarded commands) finds the
breaker not blocking, the body stops at the authorization check: no file
is read, written or deleted, the files are unchanged, exactly one
`UNAUTHORIZED_ACCESS` failure audit record is produced, and the reply is
the unauthorized message for `/start` and silence for every other
command. -/
theorem C9_unauthorized_no_effect (uid authUid : Nat) (now : ℚ) (rl : List ℚ)
    (cb : CBState) (fs : FS) (cmd : Cmd) (hne : uid ≠ authUid)
    (hr : (prune now rl).length < RATE_LIMIT_COMMANDS)
    (hp : guarded cmd = false ∨ cbBlocks cb now = false) :
    (handle uid authUid now rl cb fs cmd).fs = fs ∧
    fsEvents (handle uid authUid now rl cb fs cmd).trace = [] ∧
    (handle uid authUid now rl cb fs cmd).audits =
      [⟨.UNAUTHORIZED_ACCESS, false⟩] ∧
    (handle uid authUid now rl cb fs cmd).replies =
      (if cmd = .start then [Reply.unauthorized] else []) := by
  obtain ⟨cb2, hh⟩ := handle_pass uid authUid now rl cb fs cmd (Nat.not_le.mpr hr) hp
  rw [hh, runBody_unauth uid authUid fs cmd hne]
  refine ⟨rfl, ?_, rfl, rfl⟩
  by_cases hg : guarded cmd = true
  · rw [hg]
    simp [fsEvents, isFsEv]
  · rw [show guarded cmd = false by simpa using hg]
    simp [fsEvents, isFsEv]

/-- C9 witness: the amended theorem at an unauthorized `/reject` with an
approval request pending: nothing is touched and the caller gets
silence. -/
theorem C9_witness :
    (handle 2 1 30 [] ⟨0, none⟩ ⟨none, some "please".toList, none, []⟩ .reject).fs =
      ⟨none, some "please".toList, none, []⟩ ∧
    fsEvents (handle 2 1 30 [] ⟨0, none⟩ ⟨none, some "please".toList, none, []⟩
      .reject).trace = [] ∧
    (handle 2 1 30 [] ⟨0, none⟩ ⟨none, some "please".toList, none, []⟩ .reject).replies =
      [] := by
  have h := C9_unauthorized_no_effect 2 1 30 [] ⟨0, none⟩
    ⟨none, some "please".toList, none, []⟩ .reject (by norm_num)
    (by norm_num [prune, RATE_LIMIT_COMMANDS]) (Or.inr (by norm_num [cbBlocks, pyTruthy]))
  exact ⟨h.1, h.2.1, by rw [h.2.2.2]; simp⟩

/-! ### Reject-flow claim -/

theorem utf8Len_replicate (n : Nat) (c : Char) :
    utf8Len (List.replicate n c) = n * c.utf8Size := by
  rw [utf8Len, List.map_replicate, List.sum_replicate, smul_eq_mul]

/-- What C6 asserts whenever an authorized `/reject` reaches its body with
an approval request present: the response file ends up holding exactly
`REJECTED`, the request file is gone, and the reply announces the
rejection. -/
def rejectOutcomeClaim : Prop :=
  ∀ (authUid : Nat) (now : ℚ) (rl : List ℚ) (cb : CBState) (fs : FS) (req : List Char),
    (prune now rl).length < RATE_LIMIT_COMMANDS → cbBlocks cb now = false →
    fs.approvalFile = some req →
    (handle authUid authUid now rl cb fs .reject).fs.responseFile = some rejectedTok ∧
    (handle authUid authUid now rl cb fs .reject).fs.approvalFile = none ∧
    (handle authUid authUid now rl cb fs .reject).replies = [.rejectedMsg]

/-- C6 counterexample: an approval request file of 1048577 bytes makes
`safe_read_file` fail before anything is written — the `except Exception`
arm replies with the generic error, the response file stays unwritten and
the request file remains on disk, although the request existed and the
command was authorized and fully processed. -/
theorem C6_counterexample : ¬ rejectOutcomeClaim := by
  intro h
  have key : ∀ req : List Char,
      safe_read_file (some req) = .error .tooLarge → False := by
    intro req hread
    have h2 := h 1 0 [] ⟨0, none⟩ ⟨none, some req, none, []⟩ req
      (by norm_num [prune, RATE_LIMIT_COMMANDS]) (by norm_num [cbBlocks, pyTruthy]) rfl
    obtain ⟨cb2, hh⟩ := handle_pass 1 1 0 [] ⟨0, none⟩ ⟨none, some req, none, []⟩ .reject
      (by norm_num [prune, RATE_LIMIT_COMMANDS]) (Or.inr (by norm_num [cbBlocks, pyTruthy]))
    rw [hh] at h2
    rw [show runBody 1 1 ⟨none, some req, none, []⟩ .reject =
        ⟨⟨none, some req, none, []⟩, [.errorGeneric], [⟨.APPROVAL_ERROR, false⟩],
          [.authOk]⟩ from by simp [runBody, rejectBody, hread]] at h2
    simp at h2
  exact key (List.replicate 1048577 'a') (by
    simp only [safe_read_file]
    rw [if_pos (by
      rw [utf8Len_replicate, show Char.utf8Size 'a' = 1 from by decide]
      norm_num)])

/-- C6 (amended): if the approval request file exists and is readable
(at most the 1 MiB read limit; recall invalid UTF-8 is not representable
here) when an authorized `/reject` passes the rate and breaker gates, then
afterwards the response file contains exactly `REJECTED`, the request file
no longer exists, the reply announces the rejection, and the body's file
accesses are precisely: read the request, write the response, delete the
request, in that order. -/
theorem C6_reject_writes_rejected (authUid : Nat) (now : ℚ) (rl : List ℚ) (cb : CBState)
    (fs : FS) (req : List Char) (hr : (prune now rl).length < RATE_LIMIT_COMMANDS)
    (hb : cbBlocks cb now = false) (ha : fs.approvalFile = some req)
    (hsize : utf8Len req ≤ 1048576) :
    (handle authUid authUid now rl cb fs .reject).fs =
      { fs with responseFile := some rejectedTok, approvalFile := none } ∧
    (handle authUid authUid now rl cb fs .reject).replies = [.rejectedMsg] ∧
    (handle authUid authUid now rl cb fs .reject).audits = [⟨.APPROVAL_REJECTED, true⟩] ∧
    fsEvents (handle authUid authUid now rl cb fs .reject).trace =
      [.readF .approvalF, .writeF .responseF, .deleteF .approvalF] := by
  obtain ⟨cb2, hh⟩ := handle_pass authUid authUid now rl cb fs .reject
    (Nat.not_le.mpr hr) (Or.inr hb)
  have hread : safe_read_file (some req) = .ok req := by
    simp only [safe_read_file]
    rw [if_neg (by omega)]
  have hwrite : safe_write_file rejectedTok = .ok rejectedTok := by
    unfold safe_write_file
    rw [if_neg (by decide)]
  have hbody : runBody authUid authUid fs .reject =
      ⟨{ fs with responseFile := some rejectedTok, approvalFile := none },
        [.rejectedMsg], [⟨.APPROVAL_REJECTED, true⟩],
        [.authOk, .readF .approvalF, .writeF .responseF, .deleteF .approvalF]⟩ := by
    simp [runBody, rejectBody, ha, hread, hwrite]
  rw [hh, hbody]
  exact ⟨rfl, rfl, rfl, by simp [fsEvents, isFsEv, guarded]⟩

/-- C6 witness: the amended theorem at a concrete pending request. -/
theorem C6_witness :
    (handle 1 1 0 [] ⟨0, none⟩ ⟨none, some "please".toList, none, []⟩ .reject).fs =
      ⟨none, none, some rejectedTok, []⟩ ∧
    (handle 1 1 0 [] ⟨0, none⟩ ⟨none, some "please".toList, none, []⟩ .reject).replies =
      [.rejectedMsg] ∧
    fsEvents (handle 1 1 0 [] ⟨0, none⟩ ⟨none, some "please".toList, none, []⟩
        .reject).trace = [.readF .approvalF, .writeF .responseF, .deleteF .approvalF] := by
  have h := C6_reject_writes_rejected 1 0 [] ⟨0, none⟩
    ⟨none, some "please".toList, none, []⟩ "please".toList
    (by norm_num [prune, RATE_LIMIT_COMMANDS]) (by norm_num [cbBlocks, pyTruthy]) rfl
    (by decide)
  exact ⟨h.1, h.2.1, h.2.2.2⟩

/-! ### Empty-description claim -/

/-- A sanitized description is never empty: the `+` in the allow-set
regex requires at least one character. -/
theorem sanitize_ok_ne_nil (s d : List Char)
    (h : sanitize_task_description s = .ok d) : d ≠ [] := by
  have hm := ((sanitize_ok_iff s d).mp h).2.2.1
  intro hnil
  rw [hnil] at hm
  simp [allowedTaskMatch] at hm

/-- C10: an input that is empty or whitespace-only after trimming is
rejected by the sanitizer with the forbidden-characters error (the
allow-set pattern requires at least one character), and `/task` never
records a Task Record with an empty description: a run of `/task` either
leaves the recorded tasks unchanged or appends one whose sanitized
description is non-empty. -/
theorem C10_no_empty_task_record :
    (∀ s : List Char, pyStrip s = [] →
      sanitize_task_description s = .error .forbiddenChars) ∧
    (∀ (uid authUid : Nat) (now : ℚ) (rl : List ℚ) (cb : CBState) (fs : FS)
      (args : List (List Char)),
      (handle uid authUid now rl cb fs (.task args)).fs.tasks = fs.tasks ∨
      ∃ d, sanitize_task_description (joinSpace args) = .ok d ∧ d ≠ [] ∧
        (handle uid authUid now rl cb fs (.task args)).fs.tasks =
          fs.tasks ++ [(uid, d)]) := by
  constructor
  · intro s h
    unfold sanitize_task_description
    rw [h]
    norm_num [MAX_TASK_DESCRIPTION_LENGTH, allowedTaskMatch]
  · intro uid authUid now rl cb fs args
    by_cases hrate : RATE_LIMIT_COMMANDS ≤ (prune now rl).length
    · left
      rw [handle_rate_blocked uid authUid now rl cb fs (.task args) hrate]
    · by_cases hbr : cbBlocks cb now = true
      · left
        rw [handle_breaker_blocked uid authUid now rl cb fs (.task args) hrate rfl hbr]
      · obtain ⟨cb2, hh⟩ := handle_pass uid authUid now rl cb fs (.task args) hrate
          (Or.inr (by simpa using hbr))
        rw [hh]
        show (runBody uid authUid fs (.task args)).fs.tasks = fs.tasks ∨ _
        by_cases hu : uid = authUid
        · subst hu
          by_cases hargs : args.isEmpty
          · left
            simp [runBody, taskBody, hargs]
          · cases hs : sanitize_task_description (joinSpace args) with
            | error e =>
              left
              simp [runBody, taskBody, hargs, hs]
            | ok d =>
              cases hw1 : safe_write_file (renderTaskContent uid d) with
              | error e =>
                left
                simp [runBody, taskBody, hargs, hs, hw1]
              | ok t1 =>
                right
                refine ⟨d, rfl, sanitize_ok_ne_nil _ _ hs, ?_⟩
                cases hw2 : safe_write_file (renderStatusContent d) with
                | error e => simp [runBody, taskBody, hargs, hs, hw1, hw2]
                | ok t2 => simp [runBody, taskBody, hargs, hs, hw1, hw2]
        · left
          rw [runBody_unauth uid authUid fs (.task args) hu]

/-- C10 witness: the theorem's first part applied to a whitespace-only
input, and its second part instantiated at a concrete whitespace-only
`/task` invocation, which leaves the task list unchanged. -/
theorem C10_witness :
    sanitize_task_description "  ".toList = .error .forbiddenChars ∧
    ((handle 1 1 0 [] ⟨0, none⟩ ⟨none, none, none, []⟩ (.task ["  ".toList])).fs.tasks =
        (⟨none, none, none, []⟩ : FS).tasks ∨
      ∃ d, sanitize_task_description (joinSpace ["  ".toList]) = .ok d ∧ d ≠ [] ∧
        (handle 1 1 0 [] ⟨0, none⟩ ⟨none, none, none, []⟩
          (.task ["  ".toList])).fs.tasks =
            (⟨none, none, none, []⟩ : FS).tasks ++ [(1, d)]) :=
  ⟨C10_no_empty_task_record.1 "  ".toList (by decide),
   C10_no_empty_task_record.2 1 1 0 [] ⟨0, none⟩ ⟨none, none, none, []⟩ ["  ".toList]⟩
